import Mathlib

/-!
Shallow embedding of `src/project.py`, a Flask blog backend: user signup and
login, and CRUD on `Post` rows owned by users.  Request bodies are decoded
JSON objects; the handlers are pure functions from a database state and a
request body to a new state and an HTTP response.  External collaborators
(the SQLite store, werkzeug's password hashing, Flask routing) are modelled
by their documented contracts, as the spec puts them out of scope.
-/

namespace Project

/-- JSON scalar values as decoded by `request.json` into Python objects:
null, booleans, integers, floats and strings.  A decoded float is an IEEE
double; `jfloat` carries its exact value as a rational (every double is one,
and Python compares floats with ints and other floats by that exact value).
Arrays and nested objects never reach a decision point of this program's
logic and are not modelled; a top-level body is an object (`JObj`) or absent. -/
inductive Json where
  | null : Json
  | jbool : Bool → Json
  | jint : Int → Json
  | jfloat : ℚ → Json
  | jstr : String → Json
deriving DecidableEq, Repr

/-- Python truthiness (`not x`) on the decoded JSON scalars: `None`, `False`,
`0`, `0.0` and `""` are falsy, everything else truthy. -/
def Json.truthy : Json → Bool
  | .null => false
  | .jbool b => b
  | .jint n => n != 0
  | .jfloat q => q != 0
  | .jstr s => s != ""

/-- Python `==` on the decoded JSON scalars.  Values of distinct types
compare unequal, except across the numeric tower: Python's `bool` is a
subtype of `int` (`True == 1`, `False == 0`), and a float compares equal to
an int or bool of the same exact value (`1.0 == 1`, `1.0 == True`). -/
def pyEq : Json → Json → Bool
  | .null, .null => true
  | .jbool a, .jbool b => a == b
  | .jint a, .jint b => a == b
  | .jbool a, .jint b => (if a then (1 : Int) else 0) == b
  | .jint a, .jbool b => a == (if b then (1 : Int) else 0)
  | .jfloat a, .jfloat b => a == b
  | .jfloat a, .jint b => a == (b : ℚ)
  | .jint a, .jfloat b => (a : ℚ) == b
  | .jfloat a, .jbool b => a == (if b then (1 : ℚ) else 0)
  | .jbool a, .jfloat b => (if a then (1 : ℚ) else 0) == b
  | .jstr a, .jstr b => a == b
  | _, _ => false

/-- A decoded JSON object body: ordered key/value pairs. -/
abbrev JObj := List (String × Json)

/-- Python `data.get(k)`: the value at key `k`, or absent. -/
def jget (o : JObj) (k : String) : Option Json :=
  (o.find? (fun kv => kv.1 == k)).map (fun kv => kv.2)

/-- Truthiness of `data.get(k)`: an absent key yields `None`, which is falsy. -/
def truthyOpt : Option Json → Bool
  | none => false
  | some j => j.truthy

/-- Python `not data` on the request body: true when the body is absent or
malformed (`request.json` is `None` / raises `BadRequest`) or is the empty
JSON object `{}` (an empty dict is falsy). -/
def notData : Option JObj → Bool
  | none => true
  | some o => o.isEmpty

/-- A `datetime.datetime` value (naive, as `datetime.utcnow` returns). -/
structure DateTime where
  year : Nat
  month : Nat
  day : Nat
  hour : Nat
  minute : Nat
  second : Nat
deriving DecidableEq, Repr

/-- Two-digit zero padding, as strftime's `%m`, `%d`, `%H`, `%M` produce. -/
def pad2 (n : Nat) : String :=
  if n < 10 then "0" ++ toString n else toString n

/-- `created_at.strftime('%Y-%m-%d %H:%M')`: truncates to the minute. -/
def DateTime.strftimeYMDHM (t : DateTime) : String :=
  toString t.year ++ "-" ++ pad2 t.month ++ "-" ++ pad2 t.day ++ " " ++
    pad2 t.hour ++ ":" ++ pad2 t.minute

/-- A row of the `user` table (`class User`). -/
structure User where
  id : Nat
  username : String
  password_hash : String
deriving DecidableEq, Repr

/-- A row of the `post` table (`class Post`). -/
structure Post where
  id : Nat
  title : String
  body : String
  created_at : DateTime
  user_id : Nat
deriving DecidableEq, Repr

/-- The persistent state: the two tables, the autoincrement counters for the
integer primary keys, and the server clock read by `datetime.utcnow`. -/
structure DB where
  users : List User
  posts : List Post
  nextUserId : Nat
  nextPostId : Nat
  now : DateTime
deriving DecidableEq, Repr

/-- Model of werkzeug's `generate_password_hash` (an external primitive the
spec puts out of scope): an injective tagging of the password; the salt and
key-derivation function are abstracted away. -/
def generate_password_hash (p : String) : String := "pbkdf2$" ++ p

/-- Model of werkzeug's `check_password_hash`: succeeds exactly when the
stored hash was generated from the supplied password. -/
def check_password_hash (h p : String) : Bool := h == generate_password_hash p

/-- A response body: a JSON object or an array of JSON objects. -/
inductive RBody where
  | obj : JObj → RBody
  | arr : List JObj → RBody
deriving DecidableEq, Repr

/-- An HTTP response: status code and JSON body. -/
structure Resp where
  status : Nat
  rbody : RBody
deriving DecidableEq, Repr

/-- `jsonify({"error": msg}), s` -/
def errResp (s : Nat) (msg : String) : Resp :=
  ⟨s, .obj [("error", .jstr msg)]⟩

/-- An input that reaches an unhandled exception in the source (a non-string
credential handed to werkzeug's hashing, or a non-string column value hitting
a `nullable=False` constraint at commit) propagates as Flask's generic
server error, as spec section 7 describes. -/
def serverError : Resp :=
  ⟨500, .obj [("error", .jstr "Internal Server Error")]⟩

/-- `User.query.filter_by(username=...).first()` against a JSON value: the
stored `username` column is text, so only an equal string matches. -/
def findUserByUsernameJson (db : DB) (j : Option Json) : Option User :=
  db.users.find? (fun u => j == some (Json.jstr u.username))

/-- `User.query.get(self.user_id)`-style lookup by integer id. -/
def findUserById (db : DB) (n : Nat) : Option User :=
  db.users.find? (fun u => u.id == n)

/-- `Post.query.get(...)` / `get_or_404` lookup by the path's `<int:id>`. -/
def findPost (db : DB) (id : Nat) : Option Post :=
  db.posts.find? (fun p => p.id == id)

/-- `Post.to_dict` (src/project.py lines 45-53).  `self.author.username`
resolves the foreign key; on any state satisfying the FK constraint the
owner exists, and the `none` branch is unreachable. -/
def Post.to_dict (db : DB) (p : Post) : JObj :=
  [ ("id", .jint p.id),
    ("title", .jstr p.title),
    ("body", .jstr p.body),
    ("author", .jstr (match findUserById db p.user_id with
                      | some u => u.username
                      | none => "")),
    ("user_id", .jint p.user_id),
    ("created_at", .jstr p.created_at.strftimeYMDHM) ]

/-- `POST /signup` (src/project.py lines 57-80). -/
def signup (db : DB) (rb : Option JObj) : DB × Resp :=
  if notData rb then (db, errResp 400 "Invalid JSON") else
  let data := rb.getD []
  let username := jget data "username"
  let password := jget data "password"
  if !(truthyOpt username && truthyOpt password) then
    (db, errResp 400 "Username and password required")
  else
    match username with
    | some (.jstr un) =>
      if (db.users.find? (fun u => u.username == un)).isSome then
        (db, errResp 400 "User already exists")
      else
        match password with
        | some (.jstr pw) =>
          let u : User := ⟨db.nextUserId, un, generate_password_hash pw⟩
          ({ db with users := db.users ++ [u], nextUserId := db.nextUserId + 1 },
           ⟨201, .obj [("message", .jstr "User created successfully")]⟩)
        | _ => (db, serverError)
    | _ => (db, serverError)

/-- `POST /login` (src/project.py lines 83-98).  `not user` short-circuits
before the hash check, so an unknown username gives 401 whatever the
password. -/
def login (db : DB) (rb : Option JObj) : DB × Resp :=
  if notData rb then (db, errResp 400 "Invalid JSON") else
  let data := rb.getD []
  match findUserByUsernameJson db (jget data "username") with
  | none => (db, errResp 401 "Invalid credentials")
  | some u =>
    match jget data "password" with
    | some (.jstr pw) =>
      if !(check_password_hash u.password_hash pw) then
        (db, errResp 401 "Invalid credentials")
      else
        (db, ⟨200, .obj [("message", .jstr "Login successful"),
                         ("user_id", .jint u.id)]⟩)
    | _ => (db, serverError)

/-- `User.query.get(pk)` on the raw JSON `user_id`.  SQLAlchemy passes the
value through; SQLite integer affinity lets a digit string match the integer
it denotes, numeric comparison lets a float match an id of equal value, and
a Python bool is transmitted as 0/1. -/
def pkGetUser (db : DB) : Json → Option User
  | .jint n => db.users.find? (fun u => (u.id : Int) == n)
  | .jstr s =>
    match s.toInt? with
    | some n => db.users.find? (fun u => (u.id : Int) == n)
    | none => none
  | .jbool b => db.users.find? (fun u => (u.id : Int) == (if b then 1 else 0))
  | .jfloat q => db.users.find? (fun u => (u.id : ℚ) == q)
  | .null => none

/-- `POST /posts` (src/project.py lines 103-125). -/
def create_post (db : DB) (rb : Option JObj) : DB × Resp :=
  if notData rb then (db, errResp 400 "Invalid JSON") else
  let data := rb.getD []
  let title := jget data "title"
  let bodyF := jget data "body"
  let user_id := jget data "user_id"
  if !(truthyOpt title && truthyOpt bodyF && truthyOpt user_id) then
    (db, errResp 400 "title, body, user_id required")
  else
    match pkGetUser db (user_id.getD .null) with
    | none => (db, errResp 404 "User not found")
    | some u =>
      match title, bodyF with
      | some (.jstr t), some (.jstr b) =>
        let p : Post := ⟨db.nextPostId, t, b, db.now, u.id⟩
        let db' := { db with posts := db.posts ++ [p],
                             nextPostId := db.nextPostId + 1 }
        (db', ⟨201, .obj (Post.to_dict db' p)⟩)
      | _, _ => (db, serverError)

/-- `GET /posts` (src/project.py lines 129-132). -/
def get_posts (db : DB) : DB × Resp :=
  (db, ⟨200, .arr (db.posts.map (Post.to_dict db))⟩)

/-- The ownership gate `data.get('user_id') != post.user_id` of the update
and delete handlers: Python `!=` on the raw JSON value against the stored
integer owner id; an absent key compares as `None`. -/
def ownerGate (j : Option Json) (owner : Nat) : Bool :=
  pyEq (j.getD .null) (.jint owner)

/-- `data.get(k, default)` feeding a `nullable=False` text column: an absent
key keeps the default, a string value replaces it; any other JSON value
engages SQLite dynamic typing or an integrity error at commit, outside the
embedded logic (such requests fall to `serverError`). -/
def strField : Option Json → Option (Option String)
  | none => some none
  | some (.jstr s) => some (some s)
  | some _ => none

/-- `PUT /posts/<int:id>` (src/project.py lines 136-151).  Note the order:
`get_or_404` runs before the body is decoded, which runs before the
ownership gate. -/
def update_post (db : DB) (id : Nat) (rb : Option JObj) : DB × Resp :=
  match findPost db id with
  | none => (db, errResp 404 "Not Found")
  | some post =>
    if notData rb then (db, errResp 400 "Invalid JSON") else
    let data := rb.getD []
    if !(ownerGate (jget data "user_id") post.user_id) then
      (db, errResp 403 "Permission denied")
    else
      match strField (jget data "title"), strField (jget data "body") with
      | some t?, some b? =>
        let post' := { post with title := t?.getD post.title,
                                 body := b?.getD post.body }
        let db' := { db with
          posts := db.posts.map (fun q => if q.id == post.id then post' else q) }
        (db', ⟨200, .obj (Post.to_dict db' post')⟩)
      | _, _ => (db, serverError)

/-- `DELETE /posts/<int:id>` (src/project.py lines 155-169).  Same
404-before-body-before-gate order as update. -/
def delete_post (db : DB) (id : Nat) (rb : Option JObj) : DB × Resp :=
  match findPost db id with
  | none => (db, errResp 404 "Not Found")
  | some post =>
    if notData rb then (db, errResp 400 "Invalid JSON") else
    let data := rb.getD []
    if !(ownerGate (jget data "user_id") post.user_id) then
      (db, errResp 403 "Permission denied")
    else
      ({ db with posts := db.posts.filter (fun q => !(q.id == post.id)) },
       ⟨200, .obj [("message", .jstr "Post deleted")]⟩)

/-- `GET /users/<string:username>/posts` (src/project.py lines 173-176). -/
def get_user_posts (db : DB) (username : String) : DB × Resp :=
  match db.users.find? (fun u => u.username == username) with
  | none => (db, errResp 404 "Not Found")
  | some u =>
    (db, ⟨200, .arr ((db.posts.filter (fun p => p.user_id == u.id)).map
                       (Post.to_dict db))⟩)

/-- One inbound HTTP request, over the routes the app exposes. -/
inductive Op where
  | opSignup : Option JObj → Op
  | opLogin : Option JObj → Op
  | opCreatePost : Option JObj → Op
  | opGetPosts : Op
  | opUpdatePost : Nat → Option JObj → Op
  | opDeletePost : Nat → Option JObj → Op
  | opGetUserPosts : String → Op

/-- Dispatch of one request to its handler. -/
def step (db : DB) : Op → DB × Resp
  | .opSignup b => signup db b
  | .opLogin b => login db b
  | .opCreatePost b => create_post db b
  | .opGetPosts => get_posts db
  | .opUpdatePost id b => update_post db id b
  | .opDeletePost id b => delete_post db id b
  | .opGetUserPosts un => get_user_posts db un

/-- Well-formedness the autoincrement primary key guarantees for reachable
states: post ids are distinct and below the next-id counter. -/
def DB.wfPosts (db : DB) : Prop :=
  (db.posts.map Post.id).Nodup ∧ ∀ p ∈ db.posts, p.id < db.nextPostId

end Project

namespace Project

/-! Concrete states used by witnesses and counterexamples. -/

/-- A fixed clock reading. -/
def tW : DateTime := ⟨2024, 1, 2, 3, 4, 5⟩

/-- A registered user `alice` with id 1. -/
def uW : User := ⟨1, "alice", generate_password_hash "pw1"⟩

/-- A post with id 1 owned by user 1. -/
def pW : Post := ⟨1, "T", "B", tW, 1⟩

/-- A state holding `alice` and her post. -/
def dbW : DB := ⟨[uW], [pW], 2, 2, tW⟩

/-- A state holding `alice` and no posts. -/
def dbNoPosts : DB := ⟨[uW], [], 2, 1, tW⟩

/-- The empty initial state. -/
def dbEmpty : DB := ⟨[], [], 1, 1, tW⟩

/-- A nonempty request body is not `not data`-falsy. -/
theorem notData_some_of_ne_nil (data : JObj) (hne : data ≠ []) :
    notData (some data) = false := by
  cases data with
  | nil => exact absurd rfl hne
  | cons a l => rfl

/-- C1: for every stored post and every update or delete request carrying an
integer `user_id`, the operation fails with 403 Permission denied and leaves
the state unchanged when that integer differs from the post's stored owner
id, and succeeds with 200 and the mutation applied when it equals it. -/
theorem c1_owner_gate (db : DB) (id : Nat) (post : Post) (data : JObj) (n : Int)
    (hfind : findPost db id = some post)
    (hne : data ≠ [])
    (huid : jget data "user_id" = some (.jint n)) :
    (n ≠ (post.user_id : Int) →
       update_post db id (some data) = (db, errResp 403 "Permission denied") ∧
       delete_post db id (some data) = (db, errResp 403 "Permission denied")) ∧
    (n = (post.user_id : Int) →
       (∀ t? b?, strField (jget data "title") = some t? →
          strField (jget data "body") = some b? →
          (update_post db id (some data)).2.status = 200 ∧
          (update_post db id (some data)).1.posts =
            db.posts.map (fun q => if q.id == post.id then
              { post with title := t?.getD post.title,
                          body := b?.getD post.body } else q)) ∧
       (delete_post db id (some data)).2.status = 200 ∧
       (delete_post db id (some data)).1.posts =
         db.posts.filter (fun q => !(q.id == post.id))) := by
  have hnd := notData_some_of_ne_nil data hne
  constructor
  · intro hdiff
    have hg : ownerGate (jget data "user_id") post.user_id = false := by
      simp [ownerGate, huid, pyEq]
      exact hdiff
    constructor
    · simp [update_post, hfind, hnd, hg]
    · simp [delete_post, hfind, hnd, hg]
  · intro heq
    have hg : ownerGate (jget data "user_id") post.user_id = true := by
      simp [ownerGate, huid, pyEq, heq]
    refine ⟨?_, ?_, ?_⟩
    · intro t? b? ht hb
      constructor
      · simp [update_post, hfind, hnd, hg, ht, hb]
      · simp [update_post, hfind, hnd, hg, ht, hb]
    · simp [delete_post, hfind, hnd, hg]
    · simp [delete_post, hfind, hnd, hg]

/-- Witness for C1 at a concrete state: deleting `alice`'s post with her own
id succeeds with 200. -/
theorem c1_owner_gate_witness :
    (delete_post dbW 1 (some [("user_id", Json.jint 1), ("title", Json.jstr "X")])).2.status = 200 :=
  ((c1_owner_gate dbW 1 pW [("user_id", Json.jint 1), ("title", Json.jstr "X")] 1
    (by decide) (by decide) (by decide)).2 (by decide)).2.1

/-- C3: an owner update supplying only `title` rewrites the title and keeps
the body (the replacement record is `post` with only `title` changed), and
symmetrically a body-only update keeps the title. -/
theorem c3_partial_update (db : DB) (id : Nat) (post : Post) (t b2 : String)
    (hfind : findPost db id = some post) :
    ((update_post db id (some [("user_id", .jint post.user_id), ("title", .jstr t)])).2.status = 200 ∧
     (update_post db id (some [("user_id", .jint post.user_id), ("title", .jstr t)])).1.posts =
       db.posts.map (fun q => if q.id == post.id then { post with title := t } else q)) ∧
    ((update_post db id (some [("user_id", .jint post.user_id), ("body", .jstr b2)])).2.status = 200 ∧
     (update_post db id (some [("user_id", .jint post.user_id), ("body", .jstr b2)])).1.posts =
       db.posts.map (fun q => if q.id == post.id then { post with body := b2 } else q)) := by
  refine ⟨⟨?_, ?_⟩, ⟨?_, ?_⟩⟩ <;>
    simp [update_post, hfind, notData, jget, ownerGate, pyEq, strField]

/-- Witness for C3: updating only the title of `alice`'s post leaves its
body `"B"` in place. -/
theorem c3_partial_update_witness :
    (update_post dbW 1 (some [("user_id", Json.jint 1), ("title", Json.jstr "X")])).1.posts =
      dbW.posts.map (fun q => if q.id == pW.id then { pW with title := "X" } else q) :=
  ((c3_partial_update dbW 1 pW "X" "Y" (by decide)).1).2

/-- C10 counterexample: the claim says any non-integer `user_id` always draws
a 403, but the JSON boolean `true` is Python-equal to the integer 1, so an
update of a post owned by user 1 with `user_id: true` passes the gate and
succeeds with 200. -/
theorem c10_counterexample :
    (update_post dbW 1 (some [("user_id", Json.jbool true), ("title", Json.jstr "X")])).2.status = 200 ∧
    (update_post dbW 1 (some [("user_id", Json.jbool true), ("title", Json.jstr "X")])).2.status ≠ 403 := by
  decide

/-- C10 amended: the gate compares the raw JSON `user_id` with Python `==`
against the stored integer owner id; whenever that comparison fails — in
particular for an omitted key, a null, or any string value (the string "1"
included) — the request draws exactly the 403 Permission denied response,
never a 400 validation error, and changes nothing; non-integer forms that
are Python-equal to the owner id do pass the gate, among them the boolean
`true` and the float `1.0` for a post owned by user 1. -/
theorem c10_gate_pyeq (db : DB) (id : Nat) (post : Post) (data : JObj)
    (hfind : findPost db id = some post) (hne : data ≠ [])
    (hg : ownerGate (jget data "user_id") post.user_id = false) :
    update_post db id (some data) = (db, errResp 403 "Permission denied") ∧
    delete_post db id (some data) = (db, errResp 403 "Permission denied") ∧
    (∀ s m, ownerGate (some (Json.jstr s)) m = false) ∧
    (∀ m, ownerGate none m = false) ∧
    (∀ m, ownerGate (some Json.null) m = false) ∧
    ownerGate (some (Json.jbool true)) 1 = true ∧
    ownerGate (some (Json.jfloat 1)) 1 = true := by
  have hnd := notData_some_of_ne_nil data hne
  refine ⟨?_, ?_, ?_, ?_, ?_, ?_, ?_⟩
  · simp [update_post, hfind, hnd, hg]
  · simp [delete_post, hfind, hnd, hg]
  · intro s m; rfl
  · intro m; rfl
  · intro m; rfl
  · rfl
  · decide

/-- Witness for C10 at a concrete state: `user_id` supplied as the string
`"1"` against owner 1 draws the 403 response. -/
theorem c10_gate_pyeq_witness :
    update_post dbW 1 (some [("user_id", Json.jstr "1")]) = (dbW, errResp 403 "Permission denied") :=
  (c10_gate_pyeq dbW 1 pW [("user_id", Json.jstr "1")] (by decide) (by decide) (by decide)).1

end Project

namespace Project

/-- The modelled password hash is injective in the password. -/
theorem generate_password_hash_inj {a b : String}
    (h : generate_password_hash a = generate_password_hash b) : a = b := by
  have hd := congrArg String.data h
  simp only [generate_password_hash, String.data_append] at hd
  exact String.ext (List.append_cancel_left hd)

/-- C2: on a store without the username, signup with non-empty credentials
answers 201 and appends exactly one user row carrying the next generated id,
and a subsequent login with the same credentials answers 200 with that same
id as `user_id`. -/
theorem c2_signup_login (db : DB) (un pw : String)
    (hun : un ≠ "") (hpw : pw ≠ "")
    (hfresh : ∀ u ∈ db.users, u.username ≠ un) :
    (signup db (some [("username", .jstr un), ("password", .jstr pw)])).2.status = 201 ∧
    (signup db (some [("username", .jstr un), ("password", .jstr pw)])).1.users =
      db.users ++ [⟨db.nextUserId, un, generate_password_hash pw⟩] ∧
    (login (signup db (some [("username", .jstr un), ("password", .jstr pw)])).1
           (some [("username", .jstr un), ("password", .jstr pw)])).2 =
      ⟨200, .obj [("message", .jstr "Login successful"),
                  ("user_id", .jint db.nextUserId)]⟩ := by
  have hdup : db.users.find? (fun u => u.username == un) = none := by
    rw [List.find?_eq_none]
    intro u hu
    simpa using hfresh u hu
  have hnone : db.users.find?
      (fun u' => Json.jstr un == Json.jstr u'.username) = none := by
    rw [List.find?_eq_none]
    intro u' hu'
    simp only [beq_iff_eq, Json.jstr.injEq]
    exact fun h => hfresh u' hu' h.symm
  refine ⟨?_, ?_, ?_⟩ <;>
    simp [signup, login, notData, jget, truthyOpt, Json.truthy,
          findUserByUsernameJson, check_password_hash, hun, hpw, hdup, hnone]

/-- Witness for C2: on the empty store, signup then login as `alice` yields
user id 1. -/
theorem c2_signup_login_witness :
    (login (signup dbEmpty (some [("username", .jstr "alice"), ("password", .jstr "pw1")])).1
           (some [("username", .jstr "alice"), ("password", .jstr "pw1")])).2 =
      ⟨200, .obj [("message", .jstr "Login successful"), ("user_id", .jint 1)]⟩ :=
  (c2_signup_login dbEmpty "alice" "pw1" (by decide) (by decide)
    (by intro u hu; simp [dbEmpty] at hu)).2.2

/-- C5: once a signup for a username has answered 201, a second signup with
the same username and any password value whatever answers 400 and leaves the
store unchanged (no second row); whenever the supplied password is truthy the
response is exactly the "User already exists" conflict (a falsy password is
caught by the required-fields validation first, still a 400 with no row). -/
theorem c5_dup_signup (db : DB) (un pw1 : String) (pj : Json)
    (h201 : (signup db (some [("username", .jstr un), ("password", .jstr pw1)])).2.status = 201) :
    (signup (signup db (some [("username", .jstr un), ("password", .jstr pw1)])).1
            (some [("username", .jstr un), ("password", pj)])).2.status = 400 ∧
    (signup (signup db (some [("username", .jstr un), ("password", .jstr pw1)])).1
            (some [("username", .jstr un), ("password", pj)])).1 =
      (signup db (some [("username", .jstr un), ("password", .jstr pw1)])).1 ∧
    (pj.truthy = true →
       (signup (signup db (some [("username", .jstr un), ("password", .jstr pw1)])).1
               (some [("username", .jstr un), ("password", pj)])).2 =
         errResp 400 "User already exists") := by
  by_cases hun : un = ""
  · subst hun
    simp [signup, notData, jget, truthyOpt, Json.truthy, errResp] at h201
  by_cases hpw : pw1 = ""
  · subst hpw
    simp [signup, notData, jget, truthyOpt, Json.truthy, errResp] at h201
  by_cases hdup : (db.users.find? (fun u => u.username == un)).isSome
  · simp [signup, notData, jget, truthyOpt, Json.truthy, errResp, hun, hpw, hdup] at h201
  have hdup' : db.users.find? (fun u => u.username == un) = none :=
    Option.not_isSome_iff_eq_none.mp hdup
  have hdb1 : (signup db (some [("username", .jstr un), ("password", .jstr pw1)])).1 =
      { db with users := db.users ++ [⟨db.nextUserId, un, generate_password_hash pw1⟩],
                nextUserId := db.nextUserId + 1 } := by
    simp [signup, notData, jget, truthyOpt, Json.truthy, hun, hpw, hdup']
  rw [hdb1]
  cases pj with
  | null =>
    simp [signup, notData, jget, truthyOpt, Json.truthy, errResp, hun, hdup']
  | jbool b =>
    cases b with
    | false => simp [signup, notData, jget, truthyOpt, Json.truthy, errResp, hun, hdup']
    | true => simp [signup, notData, jget, truthyOpt, Json.truthy, errResp, hun, hdup']
  | jint n =>
    by_cases hn : n = 0
    · subst hn
      simp [signup, notData, jget, truthyOpt, Json.truthy, errResp, hun, hdup']
    · have hn' : (n != 0) = true := by simpa [bne_iff_ne] using hn
      simp [signup, notData, jget, truthyOpt, Json.truthy, errResp, hun, hn', hdup']
  | jfloat q =>
    by_cases hq : q = 0
    · subst hq
      simp [signup, notData, jget, truthyOpt, Json.truthy, errResp, hun, hdup']
    · have hq' : (q != 0) = true := by simpa [bne_iff_ne] using hq
      simp [signup, notData, jget, truthyOpt, Json.truthy, errResp, hun, hq', hdup']
  | jstr s =>
    by_cases hs : s = ""
    · subst hs
      simp [signup, notData, jget, truthyOpt, Json.truthy, errResp, hun, hdup']
    · have hs' : (s != "") = true := by simpa [bne_iff_ne] using hs
      simp [signup, notData, jget, truthyOpt, Json.truthy, errResp, hun, hs', hdup']

/-- Witness for C5: re-registering `alice` with a different password answers
the 400 conflict and adds no row. -/
theorem c5_dup_signup_witness :
    (signup (signup dbEmpty (some [("username", .jstr "alice"), ("password", .jstr "pw1")])).1
            (some [("username", .jstr "alice"), ("password", .jstr "pw2")])).2 =
      errResp 400 "User already exists" :=
  (c5_dup_signup dbEmpty "alice" "pw1" (.jstr "pw2") (by decide)).2.2 (by decide)

/-- C6: login answers 401 Invalid credentials whenever the supplied username
matches no stored user, or the stored hash check fails on the supplied
password; in particular, for a user whose hash was generated from `pw0`,
any wrong password draws 401. -/
theorem c6_login_401 (db : DB) (data : JObj) (hne : data ≠ []) :
    (findUserByUsernameJson db (jget data "username") = none →
       login db (some data) = (db, errResp 401 "Invalid credentials")) ∧
    (∀ u pw, findUserByUsernameJson db (jget data "username") = some u →
       jget data "password" = some (.jstr pw) →
       check_password_hash u.password_hash pw = false →
       login db (some data) = (db, errResp 401 "Invalid credentials")) ∧
    (∀ u pw0 pw, findUserByUsernameJson db (jget data "username") = some u →
       u.password_hash = generate_password_hash pw0 →
       jget data "password" = some (.jstr pw) →
       pw ≠ pw0 →
       login db (some data) = (db, errResp 401 "Invalid credentials")) := by
  have hnd := notData_some_of_ne_nil data hne
  refine ⟨?_, ?_, ?_⟩
  · intro h
    simp [login, hnd, h]
  · intro u pw hu hpw hchk
    simp [login, hnd, hu, hpw, hchk]
  · intro u pw0 pw hu hh hpw hwrong
    have hchk : check_password_hash u.password_hash pw = false := by
      rw [hh, check_password_hash]
      exact beq_eq_false_iff_ne.mpr (fun h => hwrong (generate_password_hash_inj h).symm)
    simp [login, hnd, hu, hpw, hchk]

/-- Witness for C6: `alice` with the wrong password is rejected with 401. -/
theorem c6_login_401_witness :
    login dbW (some [("username", .jstr "alice"), ("password", .jstr "wrong")]) =
      (dbW, errResp 401 "Invalid credentials") :=
  (c6_login_401 dbW [("username", .jstr "alice"), ("password", .jstr "wrong")]
      (by decide)).2.2 uW "pw1" "wrong" (by decide) (by decide) (by decide) (by decide)

end Project

namespace Project

/-- C4 counterexample: the claim says a `user_id` referencing no existing
user draws 404, but the integer 0 — which references no user — is falsy in
Python, so `not user_id` sends it down the 400 validation branch instead. -/
theorem c4_counterexample :
    (∀ u ∈ dbNoPosts.users, u.id ≠ 0) ∧
    (create_post dbNoPosts (some [("title", Json.jstr "T"), ("body", Json.jstr "B"),
                                  ("user_id", Json.jint 0)])).2 =
      errResp 400 "title, body, user_id required" ∧
    (create_post dbNoPosts (some [("title", Json.jstr "T"), ("body", Json.jstr "B"),
                                  ("user_id", Json.jint 0)])).2.status ≠ 404 := by
  decide

/-- C4 amended: create answers 400 when title, body or `user_id` is missing
or falsy (the integer 0 included); when all three are truthy it answers 404
if the id matches no stored user, and otherwise persists exactly one new
post carrying the current clock reading as its creation timestamp and
answers 201 with that post serialized. -/
theorem c4_create_amended (db : DB) (t b : String) (n : Int) :
    ((t = "" ∨ b = "" ∨ n = 0) →
       create_post db (some [("title", .jstr t), ("body", .jstr b), ("user_id", .jint n)]) =
         (db, errResp 400 "title, body, user_id required")) ∧
    (t ≠ "" → b ≠ "" → n ≠ 0 →
       db.users.find? (fun u => (u.id : Int) == n) = none →
       create_post db (some [("title", .jstr t), ("body", .jstr b), ("user_id", .jint n)]) =
         (db, errResp 404 "User not found")) ∧
    (∀ u, t ≠ "" → b ≠ "" → n ≠ 0 →
       db.users.find? (fun u' => (u'.id : Int) == n) = some u →
       (create_post db (some [("title", .jstr t), ("body", .jstr b), ("user_id", .jint n)])).2.status = 201 ∧
       (create_post db (some [("title", .jstr t), ("body", .jstr b), ("user_id", .jint n)])).1.posts =
         db.posts ++ [⟨db.nextPostId, t, b, db.now, u.id⟩] ∧
       (create_post db (some [("title", .jstr t), ("body", .jstr b), ("user_id", .jint n)])).2.rbody =
         .obj (Post.to_dict
           (create_post db (some [("title", .jstr t), ("body", .jstr b), ("user_id", .jint n)])).1
           ⟨db.nextPostId, t, b, db.now, u.id⟩)) := by
  refine ⟨?_, ?_, ?_⟩
  · rintro (ht | hb | hn)
    · subst ht
      simp [create_post, notData, jget, truthyOpt, Json.truthy]
    · subst hb
      simp [create_post, notData, jget, truthyOpt, Json.truthy]
    · subst hn
      simp [create_post, notData, jget, truthyOpt, Json.truthy]
  · intro ht hb hn hfind
    simp [create_post, notData, jget, truthyOpt, Json.truthy, pkGetUser, ht, hb, hn, hfind]
  · intro u ht hb hn hfind
    refine ⟨?_, ?_, ?_⟩ <;>
      simp [create_post, notData, jget, truthyOpt, Json.truthy, pkGetUser, ht, hb, hn, hfind]

/-- Witness for C4 amended: creating a post as `alice` (id 1) answers 201. -/
theorem c4_create_amended_witness :
    (create_post dbNoPosts (some [("title", .jstr "T"), ("body", .jstr "B"),
                                  ("user_id", .jint 1)])).2.status = 201 :=
  ((c4_create_amended dbNoPosts "T" "B" 1).2.2 uW (by decide) (by decide) (by decide)
    (by decide)).1

/-- C7 counterexample: a PUT with an absent body on an unknown post id draws
404, the service-level not-found outcome, not the 400 body rejection the
claim promises first: `get_or_404` runs before `request.json` is read. -/
theorem c7_counterexample :
    findPost dbNoPosts 1 = none ∧
    update_post dbNoPosts 1 none = (dbNoPosts, errResp 404 "Not Found") ∧
    (update_post dbNoPosts 1 none).2.status ≠ 400 := by
  decide

/-- C7 amended: for POST /signup, /login and /posts an absent or malformed
body is rejected with 400 before any service-level outcome; for PUT and
DELETE /posts/{id} the existence check on the id runs first, so an unknown
id draws 404 even with an absent body, and the 400 body rejection fires
only once the post exists (still before the ownership check). -/
theorem c7_body_check_order (db : DB) (id : Nat) :
    signup db none = (db, errResp 400 "Invalid JSON") ∧
    login db none = (db, errResp 400 "Invalid JSON") ∧
    create_post db none = (db, errResp 400 "Invalid JSON") ∧
    (findPost db id = none →
       update_post db id none = (db, errResp 404 "Not Found") ∧
       delete_post db id none = (db, errResp 404 "Not Found")) ∧
    (∀ post, findPost db id = some post →
       update_post db id none = (db, errResp 400 "Invalid JSON") ∧
       delete_post db id none = (db, errResp 400 "Invalid JSON")) := by
  refine ⟨?_, ?_, ?_, ?_, ?_⟩
  · simp [signup, notData]
  · simp [login, notData]
  · simp [create_post, notData]
  · intro h
    constructor
    · simp [update_post, h]
    · simp [delete_post, h]
  · intro post h
    constructor
    · simp [update_post, h, notData]
    · simp [delete_post, h, notData]

/-- Witness for C7 amended: on a store where post 1 exists, a PUT with an
absent body draws the 400 body rejection. -/
theorem c7_body_check_order_witness :
    update_post dbW 1 none = (dbW, errResp 400 "Invalid JSON") :=
  ((c7_body_check_order dbW 1).2.2.2.2 pW (by decide)).1

/-- C9: a serialized post holds exactly the keys id, title, body, author,
user_id, created_at in that order; author is the owning user's username,
created_at the creation timestamp rendered `YYYY-MM-DD HH:MM`, which is
insensitive to the seconds field; and the list endpoint returns 200 with
every stored post passed through this serializer. -/
theorem c9_to_dict_contract (db : DB) (p : Post) (u : User)
    (hu : findUserById db p.user_id = some u) :
    (Post.to_dict db p).map Prod.fst =
      ["id", "title", "body", "author", "user_id", "created_at"] ∧
    jget (Post.to_dict db p) "author" = some (.jstr u.username) ∧
    jget (Post.to_dict db p) "created_at" = some (.jstr p.created_at.strftimeYMDHM) ∧
    jget (Post.to_dict db p) "user_id" = some (.jint p.user_id) ∧
    jget (Post.to_dict db p) "id" = some (.jint p.id) ∧
    jget (Post.to_dict db p) "title" = some (.jstr p.title) ∧
    jget (Post.to_dict db p) "body" = some (.jstr p.body) ∧
    (∀ s, DateTime.strftimeYMDHM { p.created_at with second := s } =
            p.created_at.strftimeYMDHM) ∧
    (get_posts db).2 = ⟨200, .arr (db.posts.map (Post.to_dict db))⟩ := by
  refine ⟨?_, ?_, ?_, ?_, ?_, ?_, ?_, ?_, ?_⟩ <;>
    simp [Post.to_dict, jget, hu, DateTime.strftimeYMDHM, get_posts]

/-- Witness for C9 at a concrete state: `alice`'s post serializes with
author `"alice"`. -/
theorem c9_to_dict_contract_witness :
    jget (Post.to_dict dbW pW) "author" = some (.jstr "alice") :=
  (c9_to_dict_contract dbW pW uW (by decide)).2.1

end Project

namespace Project

/-- Signup never touches the posts table. -/
theorem signup_posts_unchanged (db : DB) (rb : Option JObj) :
    (signup db rb).1.posts = db.posts := by
  unfold signup
  dsimp only
  repeat' split
  all_goals rfl

/-- Login never changes the state. -/
theorem login_state_unchanged (db : DB) (rb : Option JObj) :
    (login db rb).1 = db := by
  unfold login
  dsimp only
  repeat' split
  all_goals rfl

/-- Listing a user's posts never changes the state. -/
theorem get_user_posts_state_unchanged (db : DB) (un : String) :
    (get_user_posts db un).1 = db := by
  unfold get_user_posts
  repeat' split
  all_goals rfl

/-- Create either leaves the posts table alone or appends one post whose id
is the next counter value. -/
theorem create_post_posts_shape (db : DB) (rb : Option JObj) :
    (create_post db rb).1.posts = db.posts ∨
    ∃ t b uid, (create_post db rb).1.posts =
      db.posts ++ [⟨db.nextPostId, t, b, db.now, uid⟩] := by
  unfold create_post
  dsimp only
  repeat' split
  all_goals try exact Or.inl rfl
  exact Or.inr ⟨_, _, _, rfl⟩

/-- Update either leaves the posts table alone or replaces the found post by
one sharing its id, owner and creation timestamp. -/
theorem update_post_posts_shape (db : DB) (id : Nat) (rb : Option JObj) :
    (update_post db id rb).1.posts = db.posts ∨
    ∃ post post', findPost db id = some post ∧
      post'.id = post.id ∧ post'.user_id = post.user_id ∧
      post'.created_at = post.created_at ∧
      (update_post db id rb).1.posts =
        db.posts.map (fun q => if q.id == post.id then post' else q) := by
  unfold update_post
  cases hfind : findPost db id with
  | none => exact Or.inl rfl
  | some post =>
    dsimp only
    split
    · exact Or.inl rfl
    · split
      · exact Or.inl rfl
      · split
        all_goals try exact Or.inl rfl
        refine Or.inr ⟨post, _, rfl, ?_, ?_, ?_, rfl⟩ <;> rfl

/-- Delete only removes posts: the resulting table is a subset. -/
theorem delete_post_posts_subset (db : DB) (id : Nat) (rb : Option JObj) :
    ∀ q ∈ (delete_post db id rb).1.posts, q ∈ db.posts := by
  unfold delete_post
  cases hfind : findPost db id with
  | none =>
    intro q hq
    exact hq
  | some post =>
    dsimp only
    split
    · intro q hq
      exact hq
    · split
      · intro q hq
        exact hq
      · intro q hq
        exact (List.mem_filter.mp hq).1

/-- Posts with equal ids in a table with Nodup ids are equal. -/
theorem posts_id_inj {l : List Post} (d : (l.map Post.id).Nodup)
    {p q : Post} (hp : p ∈ l) (hq : q ∈ l) (h : q.id = p.id) : q = p :=
  List.inj_on_of_nodup_map d hq hp h

/-- C8: across every request the app serves, a post present both before and
after the request (same id, on a well-formed state) keeps its owner
reference and its creation timestamp. -/
theorem c8_owner_created_at_immutable (db : DB) (op : Op) (p q : Post)
    (hwf : db.wfPosts)
    (hp : p ∈ db.posts) (hq : q ∈ (step db op).1.posts) (hid : q.id = p.id) :
    q.user_id = p.user_id ∧ q.created_at = p.created_at := by
  obtain ⟨hnd, hbound⟩ := hwf
  have base : q ∈ db.posts → q.user_id = p.user_id ∧ q.created_at = p.created_at := by
    intro hq'
    have := posts_id_inj hnd hp hq' hid
    rw [this]
    exact ⟨rfl, rfl⟩
  cases op with
  | opSignup rb =>
    replace hq : q ∈ (signup db rb).1.posts := hq
    rw [signup_posts_unchanged db rb] at hq
    exact base hq
  | opLogin rb =>
    replace hq : q ∈ (login db rb).1.posts := hq
    rw [login_state_unchanged db rb] at hq
    exact base hq
  | opGetPosts =>
    exact base hq
  | opGetUserPosts un =>
    replace hq : q ∈ (get_user_posts db un).1.posts := hq
    rw [get_user_posts_state_unchanged db un] at hq
    exact base hq
  | opCreatePost rb =>
    replace hq : q ∈ (create_post db rb).1.posts := hq
    rcases create_post_posts_shape db rb with h | ⟨t, b, uid, h⟩
    · rw [h] at hq
      exact base hq
    · rw [h] at hq
      rcases List.mem_append.mp hq with hq' | hq'
      · exact base hq'
      · exfalso
        have hqe : q = ⟨db.nextPostId, t, b, db.now, uid⟩ := by
          simpa using hq'
        have hlt : p.id < db.nextPostId := hbound p hp
        rw [← hid, hqe] at hlt
        exact Nat.lt_irrefl _ hlt
  | opUpdatePost id rb =>
    replace hq : q ∈ (update_post db id rb).1.posts := hq
    rcases update_post_posts_shape db id rb with h | ⟨post, post', hfind, hpid, huid, hca, h⟩
    · rw [h] at hq
      exact base hq
    · rw [h] at hq
      rcases List.mem_map.mp hq with ⟨r, hr, hrq⟩
      by_cases hc : (r.id == post.id) = true
      · rw [if_pos hc] at hrq
        have hpost_mem : post ∈ db.posts := List.mem_of_find?_eq_some hfind
        have hqid : q.id = post.id := by rw [← hrq, hpid]
        have hpp : post = p := posts_id_inj hnd hp hpost_mem (by rw [← hqid, hid])
        rw [← hrq, ← hpp]
        exact ⟨huid, hca⟩
      · rw [if_neg hc] at hrq
        rw [hrq] at hr
        exact base hr
  | opDeletePost id rb =>
    exact base (delete_post_posts_subset db id rb q hq)

/-- Witness for C8: updating the title of `alice`'s post leaves the updated
row's owner and creation timestamp equal to the original's. -/
theorem c8_owner_created_at_immutable_witness :
    (⟨1, "X", "B", tW, 1⟩ : Post).user_id = pW.user_id ∧
    (⟨1, "X", "B", tW, 1⟩ : Post).created_at = pW.created_at :=
  c8_owner_created_at_immutable dbW
    (Op.opUpdatePost 1 (some [("user_id", Json.jint 1), ("title", Json.jstr "X")]))
    pW ⟨1, "X", "B", tW, 1⟩ (by exact ⟨by decide, by decide⟩)
    (by decide) (by decide) (by decide)

end Project
